import Mathlib

/-!
Shallow embedding of `nucypher/config/utils.py` (configuration bootstrap and
validation) and proofs of the specification claims about it.

Python exceptions are modelled with `Except PyError`; the filesystem state
(directories created by `os.mkdir`, file contents) is passed explicitly.
File contents are modelled as lists of lines, matching Python's line-wise
file iteration in `write_default_ini_config`.
-/

/-- The two kinds of errors the module can signal: the domain-specific
`NucypherConfigurationError` and generic OS-level failures
(`FileExistsError`, `FileNotFoundError`, ...) which propagate uncaught. -/
inductive PyError where
  | configurationError (msg : String)
  | osError (msg : String)
deriving DecidableEq, Repr

/-- A single-quote character as a string (used in the formatted error
messages of the source, e.g. around the invalid operating mode). -/
def squote : String := String.singleton (Char.ofNat 39)

/-- Python `"{}".format(arg)` on an `Optional[str]` argument: `None`
renders as the text `None`, a string renders as itself. -/
def pyFormat : Option String → String
  | none => "None"
  | some s => s

/-- Python truthiness for `x if x else default` on an `Optional[str]`:
both `None` and the empty string fall through to the default. -/
def pyOr (arg : Option String) (default : String) : String :=
  match arg with
  | none => default
  | some s => if s = "" then default else s

/-- The process-wide path constants imported from `nucypher.config.constants`.
That module is not part of the provided source; the spec describes them only
as fixed process-wide path constants, so the development is parameterised
over their values and the claims are proved for every choice of them. -/
structure Constants where
  defaultConfigRoot : String
  defaultIniFilepath : String
  defaultKeyringRoot : String
  defaultKnownNodeDir : String
  defaultSeedNodeDir : String
  defaultKnownCertificatesDir : String
  defaultSeedCertificatesDir : String
  defaultKnownMetadataDir : String
  defaultSeedMetadataDir : String
  templateIniFilepath : String
deriving DecidableEq, Repr

/-- Filesystem state: directories that exist (path with its creation mode)
and regular files (path with content as a list of lines). -/
structure FS where
  dirs : List (String × Nat)
  files : List (String × List String)
deriving DecidableEq, Repr

/-- `os.path.isdir`. -/
def FS.isDir (fs : FS) (path : String) : Bool :=
  fs.dirs.any (fun d => d.1 = path)

/-- Look up a file's content (`open(path, 'r')` succeeds iff this is `some`). -/
def FS.readFile (fs : FS) (path : String) : Option (List String) :=
  (fs.files.find? (fun f => f.1 = path)).map Prod.snd

/-- `os.path.exists`: true for directories and regular files alike. -/
def FS.pathExists (fs : FS) (path : String) : Bool :=
  fs.isDir path || (fs.readFile path).isSome

/-- Set a file's content (creating or overwriting the entry). -/
def FS.writeFile (fs : FS) (path : String) (content : List String) : FS :=
  { fs with files := (path, content) :: fs.files.filter (fun f => ¬ f.1 = path) }

/-- `os.mkdir(path, mode)`: raises `FileExistsError` (an OS-level error,
not a `NucypherConfigurationError`) when the path already exists. -/
def FS.mkdir (fs : FS) (path : String) (mode : Nat) : FS × Except PyError Unit :=
  if fs.pathExists path then
    (fs, Except.error (PyError.osError ("FileExistsError: " ++ path)))
  else
    ({ fs with dirs := (path, mode) :: fs.dirs }, Except.ok ())

/-- Run a sequence of `os.mkdir` calls, stopping at the first failure
(no rollback: directories already created stay created). -/
def FS.mkdirAll (fs : FS) : List (String × Nat) → FS × Except PyError Unit
  | [] => (fs, Except.ok ())
  | (p, m) :: rest =>
    match fs.mkdir p m with
    | (fs1, Except.error e) => (fs1, Except.error e)
    | (fs1, Except.ok _) => fs1.mkdirAll rest

/-- The message of the unreachable blank-file guard; the source never calls
`.format` on it, so the braces appear literally in the message. -/
def blankFileMsg : String :=
  "\x7b\x7d is not a blank file.  Do you have an existing configuration?"

/-- `write_default_ini_config`: opens the bundled template for reading and
the destination with mode `w+` (which truncates it), checks that reading the
just-opened destination handle yields the empty string, then copies the
template's lines from the 13th onward (`islice(template_file, 12, None)`),
each with leading `;` characters stripped (`line.lstrip(';')`). A missing
template propagates as an OS-level error. -/
def write_default_ini_config (c : Constants) (fs : FS) (filepath : String) :
    FS × Except PyError Unit :=
  match fs.readFile c.templateIniFilepath with
  | none => (fs, Except.error (PyError.osError ("FileNotFoundError: " ++ c.templateIniFilepath)))
  | some templateLines =>
    let fs1 := fs.writeFile filepath []
    let contents := (fs1.readFile filepath).getD []
    if ¬ contents = [] then
      (fs1, Except.error (PyError.configurationError blankFileMsg))
    else
      (fs1.writeFile filepath
        ((templateLines.drop 12).map (fun line => line.dropWhile (fun ch => ch = ';'))),
       Except.ok ())

/-- Recogniser for the blank-file `NucypherConfigurationError`. -/
def isBlankFileError : Except PyError Unit → Bool
  | Except.error (PyError.configurationError m) => m == blankFileMsg
  | _ => false

/-- The eight directories `initialize_configuration` creates, in source
order and with the source's modes (root and most subdirectories `0o755`,
the keyring `0o700`). -/
def dirPlan (c : Constants) (root : String) : List (String × Nat) :=
  [(root, 0o755),
   (c.defaultKeyringRoot, 0o700),
   (c.defaultKnownNodeDir, 0o755),
   (c.defaultKnownCertificatesDir, 0o755),
   (c.defaultKnownMetadataDir, 0o755),
   (c.defaultSeedNodeDir, 0o755),
   (c.defaultSeedCertificatesDir, 0o755),
   (c.defaultSeedMetadataDir, 0o755)]

/-- `initialize_configuration`: resolves the root (caller-supplied if truthy,
else the process-wide default), raises `NucypherConfigurationError` if the
root is already a directory (interpolating the raw `config_root` argument in
the message), creates the directory tree, writes the default ini file at the
default path, and returns the raw `config_root` argument. -/
def initialize_configuration (c : Constants) (fs : FS) (config_root : Option String) :
    FS × Except PyError (Option String) :=
  let root := pyOr config_root c.defaultConfigRoot
  if fs.isDir root then
    (fs, Except.error (PyError.configurationError
      ("There are existing nucypher configuration files at " ++ pyFormat config_root)))
  else
    match fs.mkdirAll (dirPlan c root) with
    | (fs1, Except.error e) => (fs1, Except.error e)
    | (fs1, Except.ok _) =>
      match write_default_ini_config c fs1 c.defaultIniFilepath with
      | (fs2, Except.error e) => (fs2, Except.error e)
      | (fs2, Except.ok _) => (fs2, Except.ok config_root)

/-- `validate_passphrase`: an ordered list of (predicate, message) rules;
the first failing rule raises `NucypherConfigurationError`, otherwise the
function returns `True`. -/
def validate_passphrase (passphrase : String) : Except PyError Bool :=
  let rules : List (Bool × String) :=
    [(decide (16 ≤ passphrase.length), "Passphrase is too short, must be >= 16 chars.")]
  match rules.find? (fun r => !r.1) with
  | some r => Except.error (PyError.configurationError r.2)
  | none => Except.ok true

/-- `check_config_tree`: raises `NucypherConfigurationError` when the
resolved path does not exist; the message interpolates the raw
`configuration_dir` argument, not the resolved path. -/
def check_config_tree (c : Constants) (fs : FS) (configuration_dir : Option String) :
    Except PyError Bool :=
  let path := pyOr configuration_dir c.defaultConfigRoot
  if fs.pathExists path then
    Except.ok true
  else
    Except.error (PyError.configurationError
      ("No Nucypher configuration directory found at " ++ pyFormat configuration_dir ++ "."))

/-- A parsed ini document, as produced by `configparser`: an ordered mapping
of section name to an ordered mapping of key to value. -/
structure IniDoc where
  sections : List (String × List (String × String))
deriving DecidableEq, Repr

/-- `config.sections()`: the list of section names. -/
def IniDoc.sectionNames (doc : IniDoc) : List String :=
  doc.sections.map Prod.fst

/-- `config[section][key]`: `some value` when both the section and the key
exist, `none` when either lookup raises `KeyError`. -/
def IniDoc.getKey (doc : IniDoc) (sectionName key : String) : Option String :=
  match doc.sections.find? (fun s => s.1 = sectionName) with
  | none => none
  | some s => (s.2.find? (fun kv => kv.1 = key)).map Prod.snd

/-- The allowed operating modes, in source order. -/
def operatingModes : List String := ["federated", "testing", "decentralized", "centralized"]

/-- Python `repr` of the tuple of modes, as `"{}".format(modes)` renders it. -/
def operatingModesRepr : String :=
  "(" ++ squote ++ "federated" ++ squote ++ ", " ++ squote ++ "testing" ++ squote ++ ", " ++
    squote ++ "decentralized" ++ squote ++ ", " ++ squote ++ "centralized" ++ squote ++ ")"

/-- The message raised for an invalid operating mode `m`. -/
def invalidModeMsg (m : String) : String :=
  "Invalid nucypher operating mode " ++ squote ++ m ++ squote ++ ". Specify " ++
    operatingModesRepr

/-- The message raised for a missing required section `s`. -/
def missingSectionMsg (s : String) : String :=
  "Invalid config file: missing section " ++ squote ++ s ++ squote

/-- The `for section in required_sections` loop of
`validate_nucypher_ini_config`: appends each absent section to the missing
list; with `raise_on_failure` it raises on the first absent section. -/
def checkSections (secNames : List String) (raise_on_failure : Bool)
    (missing : List String) : List String → Except PyError (List String)
  | [] => Except.ok missing
  | n :: rest =>
    if n ∈ secNames then
      checkSections secNames raise_on_failure missing rest
    else if raise_on_failure then
      Except.error (PyError.configurationError (missingSectionMsg n))
    else
      checkSections secNames raise_on_failure (missing ++ [n]) rest

/-- The required top-level sections, in source order. -/
def requiredSections : List String := ["nucypher", "blockchain"]

/-- `validate_nucypher_ini_config` on a pre-parsed document (the
`config is None` branch, which reads and parses the file at `filepath`, is
not modelled: every claim quantifies over pre-parsed documents). Raises on
an empty document and on a missing `nucypher` section or `mode` key
regardless of `raise_on_failure`; an invalid mode and missing required
sections are collected into the missing list, raising instead when
`raise_on_failure` is set. -/
def validate_nucypher_ini_config (config : IniDoc) (raise_on_failure : Bool) :
    Except PyError (Bool × List String) :=
  if config.sectionNames = [] then
    Except.error (PyError.configurationError "Empty configuration file")
  else
    match config.getKey "nucypher" "mode" with
    | none => Except.error (PyError.configurationError "No operating mode configured")
    | some operating_mode =>
      let missing0 : List String := if operating_mode ∈ operatingModes then [] else ["mode"]
      if operating_mode ∉ operatingModes ∧ raise_on_failure = true then
        Except.error (PyError.configurationError (invalidModeMsg operating_mode))
      else
        match checkSections config.sectionNames raise_on_failure missing0 requiredSections with
        | Except.error e => Except.error e
        | Except.ok missing =>
          if missing.length > 0 then Except.ok (false, missing) else Except.ok (true, [])

/-!
Concrete fixtures used by the witness theorems: a choice of path constants
(all distinct), a template file with 14 lines, and small filesystems.
-/

/-- A concrete choice of the path constants, for witnesses. -/
def cTest : Constants where
  defaultConfigRoot := "/root_dir"
  defaultIniFilepath := "/ini"
  defaultKeyringRoot := "/keyring"
  defaultKnownNodeDir := "/known_nodes"
  defaultSeedNodeDir := "/seed_nodes"
  defaultKnownCertificatesDir := "/known_certs"
  defaultSeedCertificatesDir := "/seed_certs"
  defaultKnownMetadataDir := "/known_meta"
  defaultSeedMetadataDir := "/seed_meta"
  templateIniFilepath := "/template"

/-- A concrete 14-line template: 12 header lines, then two commented lines. -/
def tmplTest : List String :=
  ["h1", "h2", "h3", "h4", "h5", "h6", "h7", "h8", "h9", "h10", "h11", "h12",
   ";[nucypher]", ";;mode = federated"]

/-- A fresh filesystem holding only the template file. -/
def fsTest : FS where
  dirs := []
  files := [("/template", tmplTest)]

/-- A well-formed document: a `nucypher` section with a valid mode and a
`blockchain` section. -/
def docOk : IniDoc := ⟨[("nucypher", [("mode", "federated")]), ("blockchain", [])]⟩

/-- A document lacking the `blockchain` section. -/
def docNoBlockchain : IniDoc := ⟨[("nucypher", [("mode", "federated")])]⟩

/-- A document whose `mode` value is not an allowed operating mode. -/
def docBadMode : IniDoc := ⟨[("nucypher", [("mode", "invalid")]), ("blockchain", [])]⟩

/-- A document with no sections at all. -/
def docEmpty : IniDoc := ⟨[]⟩

/-- A non-empty document with no `nucypher` section. -/
def docNoMode : IniDoc := ⟨[("blockchain", [])]⟩

/-- A filesystem where the default configuration root already exists. -/
def fsRootExists : FS where
  dirs := [("/root_dir", 0o755)]
  files := []

/-- A completely empty filesystem. -/
def fsEmpty : FS where
  dirs := []
  files := []

/-- The `NucypherConfigurationError` message raised when the root already
exists, for the raw argument `arg`. -/
def existingRootMsg (arg : Option String) : String :=
  "There are existing nucypher configuration files at " ++ pyFormat arg

/-!
Theorems: one per claim, with helper lemmas and witnesses.
-/

/-- Reading back the file just written. -/
theorem FS.readFile_writeFile (fs : FS) (p : String) (content : List String) :
    (fs.writeFile p content).readFile p = some content := by
  simp [FS.readFile, FS.writeFile, List.find?]

/-- Claim C4: every passphrase shorter than 16 characters raises the
too-short `NucypherConfigurationError`; every passphrase of length at least
16 returns `true`; and `false` is never returned. -/
theorem validate_passphrase_spec (p : String) :
    (p.length < 16 →
      validate_passphrase p =
        Except.error (PyError.configurationError "Passphrase is too short, must be >= 16 chars.")) ∧
    (16 ≤ p.length → validate_passphrase p = Except.ok true) ∧
    validate_passphrase p ≠ Except.ok false := by
  unfold validate_passphrase
  by_cases h : 16 ≤ p.length
  · simp [h, List.find?]
  · simp [h, List.find?]

/-- Witness for C4: a concrete short passphrase raises, a concrete long one
returns `true`. -/
theorem validate_passphrase_spec_witness :
    validate_passphrase "short" =
        Except.error (PyError.configurationError "Passphrase is too short, must be >= 16 chars.") ∧
    validate_passphrase "0123456789abcdef" = Except.ok true := by
  exact ⟨(validate_passphrase_spec "short").1 (by decide),
         (validate_passphrase_spec "0123456789abcdef").2.1 (by decide)⟩

/-- Claim C2: for every filesystem state and destination filepath,
`write_default_ini_config` never raises the blank-file
`NucypherConfigurationError`: the guard reads the destination handle just
opened in truncate-write mode, which always yields the empty string. -/
theorem write_default_ini_config_no_blank_file_error (c : Constants) (fs : FS)
    (filepath : String) :
    isBlankFileError (write_default_ini_config c fs filepath).2 = false := by
  unfold write_default_ini_config
  cases h : fs.readFile c.templateIniFilepath with
  | none => simp [isBlankFileError]
  | some tmpl => simp [FS.readFile_writeFile, isBlankFileError]

/-- A successful `config[s][k]` lookup implies `s` is among the document's
section names. -/
theorem getKey_mem_sectionNames (doc : IniDoc) (s k v : String)
    (h : doc.getKey s k = some v) : s ∈ doc.sectionNames := by
  unfold IniDoc.getKey at h
  cases hf : doc.sections.find? (fun x => x.1 = s) with
  | none => rw [hf] at h; simp at h
  | some sec =>
    have hmem := List.mem_of_find?_eq_some hf
    have hp := List.find?_some hf
    exact List.mem_map.mpr ⟨sec, hmem, by simpa using hp⟩

/-- Claim C8: `write_default_ini_config` writes exactly the template's lines
from the 13th onward, in order, each with its leading `;` characters
stripped. -/
theorem write_default_ini_config_copies (c : Constants) (fs : FS) (filepath : String)
    (tmpl : List String) (h : fs.readFile c.templateIniFilepath = some tmpl) :
    ∃ fs2, write_default_ini_config c fs filepath = (fs2, Except.ok ()) ∧
      ∃ outLines, fs2.readFile filepath = some outLines ∧
        ∀ i : Nat, outLines[i]? =
          (tmpl[12 + i]?).map (fun line => line.dropWhile (fun ch => ch = ';')) := by
  refine ⟨(fs.writeFile filepath []).writeFile filepath
      ((tmpl.drop 12).map (fun line => line.dropWhile (fun ch => ch = ';'))), ?_, ?_⟩
  · unfold write_default_ini_config
    rw [h]
    simp [FS.readFile_writeFile]
  · refine ⟨(tmpl.drop 12).map (fun line => line.dropWhile (fun ch => ch = ';')),
      FS.readFile_writeFile _ _ _, ?_⟩
    intro i
    rw [List.getElem?_map, List.getElem?_drop]

/-- Witness for C8: applied to the concrete 14-line template. -/
theorem write_default_ini_config_copies_witness :
    ∃ fs2, write_default_ini_config cTest fsTest "/dest" = (fs2, Except.ok ()) ∧
      ∃ outLines, fs2.readFile "/dest" = some outLines ∧
        ∀ i : Nat, outLines[i]? =
          (tmplTest[12 + i]?).map (fun line => line.dropWhile (fun ch => ch = ';')) :=
  write_default_ini_config_copies cTest fsTest "/dest" tmplTest rfl

/-- With `raise_on_failure = false` the section loop never raises: it
returns the accumulated missing list followed by the absent sections. -/
theorem checkSections_false (secNames missing : List String) (names : List String) :
    checkSections secNames false missing names =
      Except.ok (missing ++ names.filter (fun n => decide (n ∉ secNames))) := by
  induction names generalizing missing with
  | nil => simp [checkSections]
  | cons n rest ih =>
    by_cases hn : n ∈ secNames
    · simp [checkSections, hn, ih]
    · simp [checkSections, hn, ih]

/-- Claim C3: `validate_nucypher_ini_config` raises unconditionally — for
both values of `raise_on_failure` — exactly when the document has zero
sections (`Empty configuration file`) or the `nucypher` section or its
`mode` key is absent (`No operating mode configured`); whenever the mode
key is present and `raise_on_failure` is false, a `(bool, tuple)` result is
returned instead. -/
theorem validate_ini_unconditional_raises (config : IniDoc) (r : Bool) :
    (config.sectionNames = [] →
      validate_nucypher_ini_config config r =
        Except.error (PyError.configurationError "Empty configuration file")) ∧
    (config.getKey "nucypher" "mode" = none → config.sectionNames ≠ [] →
      validate_nucypher_ini_config config r =
        Except.error (PyError.configurationError "No operating mode configured")) ∧
    (∀ m, config.getKey "nucypher" "mode" = some m →
      ∃ res, validate_nucypher_ini_config config false = Except.ok res) := by
  refine ⟨?_, ?_, ?_⟩
  · intro h
    unfold validate_nucypher_ini_config
    rw [if_pos h]
  · intro hnone hne
    unfold validate_nucypher_ini_config
    rw [if_neg hne, hnone]
  · intro m hm
    have hnuc : "nucypher" ∈ config.sectionNames := getKey_mem_sectionNames _ _ _ _ hm
    have hne : config.sectionNames ≠ [] := List.ne_nil_of_mem hnuc
    unfold validate_nucypher_ini_config
    rw [if_neg hne, hm]
    dsimp only
    simp only [Bool.false_eq_true, and_false, if_false]
    rw [checkSections_false]
    dsimp only
    split
    all_goals split
    all_goals exact ⟨_, rfl⟩

/-- Witness for C3: the empty document and a document without a `nucypher`
mode both raise for both flag values; a document with a mode returns a
result when the flag is false. -/
theorem validate_ini_unconditional_raises_witness :
    (validate_nucypher_ini_config docEmpty true =
        Except.error (PyError.configurationError "Empty configuration file")) ∧
    (validate_nucypher_ini_config docNoMode false =
        Except.error (PyError.configurationError "No operating mode configured")) ∧
    (∃ res, validate_nucypher_ini_config docOk false = Except.ok res) := by
  refine ⟨(validate_ini_unconditional_raises docEmpty true).1 rfl,
    (validate_ini_unconditional_raises docNoMode false).2.1 rfl (by decide),
    (validate_ini_unconditional_raises docOk false).2.2 "federated" rfl⟩

/-- Claim C5: any document with a `nucypher` section whose `mode` is one of
the four allowed values and with a `blockchain` section validates to
`(true, [])`, for both values of `raise_on_failure`. -/
theorem validate_ini_valid_doc (config : IniDoc) (r : Bool) (m : String)
    (h1 : config.getKey "nucypher" "mode" = some m)
    (h2 : m ∈ operatingModes)
    (h3 : "blockchain" ∈ config.sectionNames) :
    validate_nucypher_ini_config config r = Except.ok (true, []) := by
  have hnuc : "nucypher" ∈ config.sectionNames := getKey_mem_sectionNames _ _ _ _ h1
  have hne : config.sectionNames ≠ [] := List.ne_nil_of_mem hnuc
  simp [validate_nucypher_ini_config, hne, h1, h2, checkSections, requiredSections, hnuc, h3]

/-- Witness for C5: the concrete well-formed document, for both flags. -/
theorem validate_ini_valid_doc_witness :
    validate_nucypher_ini_config docOk false = Except.ok (true, []) ∧
    validate_nucypher_ini_config docOk true = Except.ok (true, []) :=
  ⟨validate_ini_valid_doc docOk false "federated" rfl (by decide) (by decide),
   validate_ini_valid_doc docOk true "federated" rfl (by decide) (by decide)⟩

/-- Claim C6: a document with a valid mode but no `blockchain` section
yields `(false, ["blockchain"])` when `raise_on_failure` is false, and
raises the `NucypherConfigurationError` naming the missing `blockchain`
section when it is true. -/
theorem validate_ini_missing_blockchain (config : IniDoc) (m : String)
    (h1 : config.getKey "nucypher" "mode" = some m)
    (h2 : m ∈ operatingModes)
    (h3 : "blockchain" ∉ config.sectionNames) :
    validate_nucypher_ini_config config false = Except.ok (false, ["blockchain"]) ∧
    validate_nucypher_ini_config config true =
      Except.error (PyError.configurationError (missingSectionMsg "blockchain")) := by
  have hnuc : "nucypher" ∈ config.sectionNames := getKey_mem_sectionNames _ _ _ _ h1
  have hne : config.sectionNames ≠ [] := List.ne_nil_of_mem hnuc
  constructor
  · simp [validate_nucypher_ini_config, hne, h1, h2, checkSections, requiredSections, hnuc, h3]
  · simp [validate_nucypher_ini_config, hne, h1, h2, checkSections, requiredSections, hnuc, h3]

/-- Witness for C6: the concrete document lacking `blockchain`. -/
theorem validate_ini_missing_blockchain_witness :
    validate_nucypher_ini_config docNoBlockchain false =
      Except.ok (false, ["blockchain"]) ∧
    validate_nucypher_ini_config docNoBlockchain true =
      Except.error (PyError.configurationError (missingSectionMsg "blockchain")) :=
  validate_ini_missing_blockchain docNoBlockchain "federated" rfl (by decide) (by decide)

/-- Claim C7: a document whose mode is outside the allowed set raises the
invalid-mode `NucypherConfigurationError` (naming the value between single
quotes and listing the four allowed modes) when `raise_on_failure` is true;
when it is false, `mode` is recorded in the returned missing list and the
first component of the result is `false`. -/
theorem validate_ini_invalid_mode (config : IniDoc) (m : String)
    (h1 : config.getKey "nucypher" "mode" = some m)
    (h2 : m ∉ operatingModes) :
    validate_nucypher_ini_config config true =
      Except.error (PyError.configurationError
        ("Invalid nucypher operating mode " ++ squote ++ m ++ squote ++ ". Specify " ++
          operatingModesRepr)) ∧
    ∃ missing, validate_nucypher_ini_config config false = Except.ok (false, missing) ∧
      "mode" ∈ missing := by
  have hnuc : "nucypher" ∈ config.sectionNames := getKey_mem_sectionNames _ _ _ _ h1
  have hne : config.sectionNames ≠ [] := List.ne_nil_of_mem hnuc
  constructor
  · simp [validate_nucypher_ini_config, hne, h1, h2, invalidModeMsg]
  · refine ⟨"mode" :: List.filter (fun n => decide (n ∉ config.sectionNames)) requiredSections,
      ?_, List.mem_cons_self _ _⟩
    simp [validate_nucypher_ini_config, hne, h1, h2, checkSections_false]

/-- Witness for C7: the concrete document with `mode = invalid`. -/
theorem validate_ini_invalid_mode_witness :
    validate_nucypher_ini_config docBadMode true =
      Except.error (PyError.configurationError
        ("Invalid nucypher operating mode " ++ squote ++ "invalid" ++ squote ++ ". Specify " ++
          operatingModesRepr)) ∧
    ∃ missing, validate_nucypher_ini_config docBadMode false = Except.ok (false, missing) ∧
      "mode" ∈ missing :=
  validate_ini_invalid_mode docBadMode "invalid" rfl (by decide)

/-- A directory survives any further `mkdir`. -/
theorem FS.mkdir_isDir_mono (fs : FS) (p : String) (mo : Nat) (q : String)
    (h : fs.isDir q = true) : ((fs.mkdir p mo).1).isDir q = true := by
  unfold FS.mkdir
  split
  · exact h
  · simp only [FS.isDir, List.any_cons] at h ⊢
    simp [h]

/-- A successful `mkdir` makes its path a directory. -/
theorem FS.mkdir_isDir_self (fs : FS) (p : String) (mo : Nat) (fs1 : FS) (u : Unit)
    (h : fs.mkdir p mo = (fs1, Except.ok u)) : fs1.isDir p = true := by
  unfold FS.mkdir at h
  split at h
  · simp at h
  · cases h
    simp [FS.isDir]

/-- A directory survives a whole `mkdirAll` sequence, whether or not it
succeeds. -/
theorem FS.mkdirAll_isDir_mono (plan : List (String × Nat)) (fs : FS) (q : String)
    (h : fs.isDir q = true) : ((fs.mkdirAll plan).1).isDir q = true := by
  induction plan generalizing fs with
  | nil => exact h
  | cons pm rest ih =>
    obtain ⟨p, mo⟩ := pm
    unfold FS.mkdirAll
    cases hmk : fs.mkdir p mo with
    | mk fs1 r =>
      have h1 : fs1.isDir q = true := by
        have := FS.mkdir_isDir_mono fs p mo q h
        rw [hmk] at this
        exact this
      cases r with
      | error e => exact h1
      | ok u => exact ih fs1 h1


/-- A successful `mkdirAll` leaves the first planned path as a directory. -/
theorem FS.mkdirAll_head_isDir (fs : FS) (p : String) (mo : Nat)
    (rest : List (String × Nat)) (fs1 : FS) (u : Unit)
    (h : fs.mkdirAll ((p, mo) :: rest) = (fs1, Except.ok u)) : fs1.isDir p = true := by
  unfold FS.mkdirAll at h
  cases hmk : fs.mkdir p mo with
  | mk fsA r =>
    rw [hmk] at h
    cases r with
    | error e => simp at h
    | ok v =>
      dsimp only at h
      have hA : fsA.isDir p = true := FS.mkdir_isDir_self fs p mo fsA v hmk
      have := FS.mkdirAll_isDir_mono rest fsA p hA
      rw [h] at this
      exact this

/-- `write_default_ini_config` touches only files, never directories. -/
theorem write_default_ini_config_dirs (c : Constants) (fs : FS) (filepath : String) :
    ((write_default_ini_config c fs filepath).1).dirs = fs.dirs := by
  unfold write_default_ini_config
  cases fs.readFile c.templateIniFilepath with
  | none => rfl
  | some tmpl =>
    simp only [FS.readFile_writeFile]
    split
    · rfl
    · rfl

/-- A successful `initialize_configuration` leaves the resolved root
existing as a directory. -/
theorem initialize_configuration_ok_isDir (c : Constants) (fs : FS) (arg : Option String)
    (fs1 : FS) (v : Option String)
    (h : initialize_configuration c fs arg = (fs1, Except.ok v)) :
    fs1.isDir (pyOr arg c.defaultConfigRoot) = true := by
  unfold initialize_configuration at h
  dsimp only at h
  split at h
  · exact absurd h (by simp)
  · cases hmk : fs.mkdirAll (dirPlan c (pyOr arg c.defaultConfigRoot)) with
    | mk fsA r =>
      rw [hmk] at h
      cases r with
      | error e => simp at h
      | ok u =>
        dsimp only at h
        cases hw : write_default_ini_config c fsA c.defaultIniFilepath with
        | mk fsB r2 =>
          rw [hw] at h
          cases r2 with
          | error e => simp at h
          | ok u2 =>
            dsimp only at h
            injection h with h1 h2
            subst h1
            have hA : fsA.isDir (pyOr arg c.defaultConfigRoot) = true := by
              unfold dirPlan at hmk
              exact FS.mkdirAll_head_isDir fs _ _ _ fsA u hmk
            have hd : fsB.dirs = fsA.dirs := by
              rw [← write_default_ini_config_dirs c fsA c.defaultIniFilepath, hw]
            unfold FS.isDir at hA ⊢
            rw [hd]
            exact hA

/-- An already-existing root makes `initialize_configuration` raise at once,
leaving the filesystem untouched. -/
theorem initialize_configuration_raises_on_existing (c : Constants) (fs : FS)
    (arg : Option String) (h : fs.isDir (pyOr arg c.defaultConfigRoot) = true) :
    initialize_configuration c fs arg =
      (fs, Except.error (PyError.configurationError (existingRootMsg arg))) := by
  unfold initialize_configuration
  simp [h, existingRootMsg]

/-- Claim C9: when the resolved root (supplied, or the default when the
argument is omitted) already exists as a directory, `initialize_configuration`
raises `NucypherConfigurationError` and the filesystem is returned unchanged
(no directories and no ini file are created); consequently, a second
invocation against the same root after a successful one raises
`NucypherConfigurationError` and again changes nothing. -/
theorem initialize_configuration_twice (c : Constants) (fs : FS) (arg : Option String) :
    (fs.isDir (pyOr arg c.defaultConfigRoot) = true →
      initialize_configuration c fs arg =
        (fs, Except.error (PyError.configurationError (existingRootMsg arg)))) ∧
    (∀ fs1 v, initialize_configuration c fs arg = (fs1, Except.ok v) →
      initialize_configuration c fs1 arg =
        (fs1, Except.error (PyError.configurationError (existingRootMsg arg)))) := by
  constructor
  · exact initialize_configuration_raises_on_existing c fs arg
  · intro fs1 v h
    exact initialize_configuration_raises_on_existing c fs1 arg
      (initialize_configuration_ok_isDir c fs arg fs1 v h)

/-- Witness for C9: a call on an already-existing default root raises, and
a second call after a successful first call on a fresh filesystem raises. -/
theorem initialize_configuration_twice_witness :
    initialize_configuration cTest fsRootExists none =
      (fsRootExists, Except.error (PyError.configurationError (existingRootMsg none))) ∧
    initialize_configuration cTest
        ((initialize_configuration cTest fsTest (some "/r")).1) (some "/r") =
      ((initialize_configuration cTest fsTest (some "/r")).1,
        Except.error (PyError.configurationError (existingRootMsg (some "/r")))) :=
  ⟨(initialize_configuration_twice cTest fsRootExists none).1 (by decide),
   (initialize_configuration_twice cTest fsTest (some "/r")).2
     ((initialize_configuration cTest fsTest (some "/r")).1) (some "/r") rfl⟩

/-- Claim C1 (refuted by the code): with `config_root = None` on a fresh
filesystem, `initialize_configuration` resolves and creates the
process-wide default root, yet returns `none` — the raw argument — and not
the root path actually used. -/
theorem initialize_configuration_returns_raw_argument :
    (initialize_configuration cTest fsTest none).2 = Except.ok none ∧
    ((initialize_configuration cTest fsTest none).1).isDir cTest.defaultConfigRoot = true :=
  ⟨rfl, rfl⟩

/-- Left cancellation for string concatenation. -/
theorem string_append_left_cancel (a b c : String) (h : a ++ b = a ++ c) : b = c := by
  apply String.ext
  have hd := congrArg String.data h
  simp only [String.data_append] at hd
  exact List.append_inj_right hd rfl

/-- Right cancellation for string concatenation. -/
theorem string_append_right_cancel (a b c : String) (h : a ++ c = b ++ c) : a = b := by
  apply String.ext
  have hd := congrArg String.data h
  simp only [String.data_append] at hd
  exact (List.append_inj' hd rfl).1

/-- Claim C10: called with the argument omitted (`None`), the error messages
of `initialize_configuration` and `check_config_tree` interpolate the raw
argument — producing the text `None` — and (whenever the default root is not
itself the string `None`) not the resolved default path that was actually
checked. -/
theorem error_messages_interpolate_raw_argument (c : Constants) :
    (∀ fs : FS, fs.isDir c.defaultConfigRoot = true →
      initialize_configuration c fs none =
        (fs, Except.error (PyError.configurationError
          "There are existing nucypher configuration files at None"))) ∧
    (∀ fs : FS, fs.pathExists c.defaultConfigRoot = false →
      check_config_tree c fs none =
        Except.error (PyError.configurationError
          "No Nucypher configuration directory found at None.")) ∧
    (c.defaultConfigRoot ≠ "None" →
      "There are existing nucypher configuration files at None" ≠
        "There are existing nucypher configuration files at " ++ c.defaultConfigRoot) ∧
    (c.defaultConfigRoot ≠ "None" →
      "No Nucypher configuration directory found at None." ≠
        "No Nucypher configuration directory found at " ++ c.defaultConfigRoot ++ ".") := by
  refine ⟨?_, ?_, ?_, ?_⟩
  · intro fs h
    have hm : existingRootMsg none =
        "There are existing nucypher configuration files at None" := by decide
    rw [initialize_configuration_raises_on_existing c fs none h, hm]
  · intro fs h
    have hm : "No Nucypher configuration directory found at " ++
        pyFormat (none : Option String) ++ "." =
        "No Nucypher configuration directory found at None." := by decide
    unfold check_config_tree
    dsimp only [pyOr]
    rw [h, hm]
    simp
  · intro hne heq
    have h0 : "There are existing nucypher configuration files at " ++ "None" =
        "There are existing nucypher configuration files at " ++ c.defaultConfigRoot := by
      calc "There are existing nucypher configuration files at " ++ "None" =
          "There are existing nucypher configuration files at None" := by decide
        _ = "There are existing nucypher configuration files at " ++ c.defaultConfigRoot := heq
    exact hne (string_append_left_cancel _ _ _ h0).symm
  · intro hne heq
    have h0 : "No Nucypher configuration directory found at " ++ "None" ++ "." =
        "No Nucypher configuration directory found at " ++ c.defaultConfigRoot ++ "." := by
      calc "No Nucypher configuration directory found at " ++ "None" ++ "." =
          "No Nucypher configuration directory found at None." := by decide
        _ = "No Nucypher configuration directory found at " ++ c.defaultConfigRoot ++ "." := heq
    exact hne (string_append_left_cancel _ _ _
      (string_append_right_cancel _ _ _ h0)).symm

/-- Witness for C10: on the concrete constants, both message equalities and
the first inequality, with all hypotheses discharged. -/
theorem error_messages_interpolate_raw_argument_witness :
    initialize_configuration cTest fsRootExists none =
      (fsRootExists, Except.error (PyError.configurationError
        "There are existing nucypher configuration files at None")) ∧
    check_config_tree cTest fsEmpty none =
      Except.error (PyError.configurationError
        "No Nucypher configuration directory found at None.") ∧
    ("There are existing nucypher configuration files at None" ≠
      "There are existing nucypher configuration files at " ++ cTest.defaultConfigRoot) :=
  ⟨(error_messages_interpolate_raw_argument cTest).1 fsRootExists (by decide),
   (error_messages_interpolate_raw_argument cTest).2.1 fsEmpty (by decide),
   (error_messages_interpolate_raw_argument cTest).2.2.1 (by decide)⟩
